import Mathlib

/-!
Verification of the labyrinth map subsystem (jleung51/labyrinth).

The development embeds the C++ sources shallowly:
* `Room` and its operations follow src/src/room.cpp.
* The polymorphic map-cell hierarchy (`LabyrinthMapCoordinate` and its two
  variants) follows src/include/labyrinth_map.hpp; the throwing defaults of
  the base class are translated branch by branch, and C++ exceptions become
  `Except CppError` results.
* The bodies of the LabyrinthMap member functions (coordinate conversion,
  Update) are only declared in the header that is part of the sources; their
  definitions below are modelled from the specification and are marked so.
-/

namespace LabyrinthVerif

/-- The Direction enumeration of room_properties.hpp, as used by room.cpp:
four cardinal directions plus the sentinel kNone. -/
inductive Direction
  | kNorth
  | kEast
  | kSouth
  | kWest
  | kNone
deriving DecidableEq, Repr

/-- Modelled from the spec: the Inhabitant enumeration holds kNone plus at
least one occupant kind. -/
inductive Inhabitant
  | kNone
  | kMinotaur
deriving DecidableEq, Repr

/-- Modelled from the spec: the Item enumeration holds kNone plus at least
one collectible kind. -/
inductive Item
  | kNone
  | kTreasure
deriving DecidableEq, Repr

/-- The RoomBorder enumeration: the classification that DirectionCheck
returns. -/
inductive RoomBorder
  | kExit
  | kRoom
  | kWall
deriving DecidableEq, Repr

/-- The three C++ exception kinds thrown by this subsystem. -/
inductive CppError
  | invalidArgument
  | domainError
  | logicError
deriving DecidableEq, Repr

instance {ε α : Type} [DecidableEq ε] [DecidableEq α] : DecidableEq (Except ε α) := fun a b =>
  match a, b with
  | Except.error x, Except.error y =>
      if h : x = y then isTrue (by rw [h]) else isFalse (fun hc => h (Except.error.inj hc))
  | Except.error _, Except.ok _ => isFalse (fun hc => Except.noConfusion hc)
  | Except.ok _, Except.error _ => isFalse (fun hc => Except.noConfusion hc)
  | Except.ok x, Except.ok y =>
      if h : x = y then isTrue (by rw [h]) else isFalse (fun hc => h (Except.ok.inj hc))

/-- The Room class of room.cpp: inhabitant, item, exit direction and four
wall flags (field names follow the C++ members). -/
structure Room where
  dark_thing_ : Inhabitant
  object_ : Item
  exit_ : Direction
  wall_north_ : Bool
  wall_east_ : Bool
  wall_south_ : Bool
  wall_west_ : Bool
deriving DecidableEq, Repr

/-- Room::GetInhabitant (room.cpp lines 37-40). -/
def Room.GetInhabitant (r : Room) : Inhabitant :=
  r.dark_thing_

/-- Room::SetInhabitant (room.cpp lines 43-47). -/
def Room.SetInhabitant (r : Room) (inh : Inhabitant) : Room :=
  { r with dark_thing_ := inh }

/-- Room::GetItem (room.cpp lines 50-53). -/
def Room.GetItem (r : Room) : Item :=
  r.object_

/-- Room::SetItem (room.cpp lines 56-60). -/
def Room.SetItem (r : Room) (itm : Item) : Room :=
  { r with object_ := itm }

/-- Room::DirectionCheck (room.cpp lines 68-93): throws invalid_argument on
kNone; otherwise kExit when d is the exit direction, kRoom when the matching
wall flag is cleared, kWall otherwise. -/
def Room.DirectionCheck (r : Room) (d : Direction) : Except CppError RoomBorder :=
  if d = Direction.kNone then
    Except.error CppError.invalidArgument
  else if d = r.exit_ then
    Except.ok RoomBorder.kExit
  else if (d = Direction.kNorth ∧ r.wall_north_ = false) ∨
          (d = Direction.kEast ∧ r.wall_east_ = false) ∨
          (d = Direction.kSouth ∧ r.wall_south_ = false) ∨
          (d = Direction.kWest ∧ r.wall_west_ = false) then
    Except.ok RoomBorder.kRoom
  else
    Except.ok RoomBorder.kWall

/-- The wall flag of a Room for a concrete direction (the four wall_ members
of room.cpp; kNone has no flag and is mapped to true, it is never used). -/
def Room.wallFlag (r : Room) : Direction → Bool
  | Direction.kNorth => r.wall_north_
  | Direction.kEast => r.wall_east_
  | Direction.kSouth => r.wall_south_
  | Direction.kWest => r.wall_west_
  | Direction.kNone => true

/-- LabyrinthMapCoordinateBorder (labyrinth_map.hpp lines 118-149): four wall
flags defaulting to true and an exit flag defaulting to false. -/
structure LabyrinthMapCoordinateBorder where
  wall_north_ : Bool := true
  wall_east_ : Bool := true
  wall_south_ : Bool := true
  wall_west_ : Bool := true
  exit_ : Bool := false
deriving DecidableEq, Repr

/-- LabyrinthMapCoordinateRoom (labyrinth_map.hpp lines 153-176): an
inhabitant defaulting to kNone and a treasure flag defaulting to false. -/
structure LabyrinthMapCoordinateRoom where
  i_ : Inhabitant := Inhabitant.kNone
  treasure_ : Bool := false
deriving DecidableEq, Repr

/-- The polymorphic cell type of labyrinth_map.hpp: every grid element is
either a Border or a Room variant. -/
inductive LabyrinthMapCoordinate
  | border (b : LabyrinthMapCoordinateBorder)
  | room (r : LabyrinthMapCoordinateRoom)
deriving DecidableEq, Repr

/-- IsWall dispatch: the base class (labyrinth_map.hpp lines 43-49) throws a
logic_error on the Room variant; the Border override is modelled from the
spec and header comments (lines 122-126): invalid_argument on kNone,
otherwise the wall flag for the direction. -/
def LabyrinthMapCoordinate.IsWall : LabyrinthMapCoordinate → Direction → Except CppError Bool
  | LabyrinthMapCoordinate.room _, _ => Except.error CppError.logicError
  | LabyrinthMapCoordinate.border _, Direction.kNone => Except.error CppError.invalidArgument
  | LabyrinthMapCoordinate.border b, Direction.kNorth => Except.ok b.wall_north_
  | LabyrinthMapCoordinate.border b, Direction.kEast => Except.ok b.wall_east_
  | LabyrinthMapCoordinate.border b, Direction.kSouth => Except.ok b.wall_south_
  | LabyrinthMapCoordinate.border b, Direction.kWest => Except.ok b.wall_west_

/-- RemoveWall dispatch: the base class (labyrinth_map.hpp lines 51-57)
throws a logic_error on the Room variant; the Border override is modelled
from the spec and header comments (lines 128-132): invalid_argument on
kNone, otherwise clears the wall flag (idempotently). -/
def LabyrinthMapCoordinate.RemoveWall : LabyrinthMapCoordinate → Direction → Except CppError LabyrinthMapCoordinate
  | LabyrinthMapCoordinate.room _, _ => Except.error CppError.logicError
  | LabyrinthMapCoordinate.border _, Direction.kNone => Except.error CppError.invalidArgument
  | LabyrinthMapCoordinate.border b, Direction.kNorth =>
      Except.ok (LabyrinthMapCoordinate.border { b with wall_north_ := false })
  | LabyrinthMapCoordinate.border b, Direction.kEast =>
      Except.ok (LabyrinthMapCoordinate.border { b with wall_east_ := false })
  | LabyrinthMapCoordinate.border b, Direction.kSouth =>
      Except.ok (LabyrinthMapCoordinate.border { b with wall_south_ := false })
  | LabyrinthMapCoordinate.border b, Direction.kWest =>
      Except.ok (LabyrinthMapCoordinate.border { b with wall_west_ := false })

/-- IsExit dispatch: the base class (labyrinth_map.hpp lines 59-65) throws a
logic_error on the Room variant; the Border override is modelled from the
spec (header lines 134-135): returns the exit flag. -/
def LabyrinthMapCoordinate.IsExit : LabyrinthMapCoordinate → Except CppError Bool
  | LabyrinthMapCoordinate.room _ => Except.error CppError.logicError
  | LabyrinthMapCoordinate.border b => Except.ok b.exit_

/-- SetExit dispatch: the base class (labyrinth_map.hpp lines 67-73) throws a
logic_error on the Room variant; the Border override is modelled from the
spec (header lines 137-140): sets the exit flag (idempotently). -/
def LabyrinthMapCoordinate.SetExit : LabyrinthMapCoordinate → Bool → Except CppError LabyrinthMapCoordinate
  | LabyrinthMapCoordinate.room _, _ => Except.error CppError.logicError
  | LabyrinthMapCoordinate.border b, v => Except.ok (LabyrinthMapCoordinate.border { b with exit_ := v })

/-- HasInhabitant dispatch: the base class (labyrinth_map.hpp lines 77-83)
throws a logic_error on the Border variant; the Room override is modelled
from the spec (header lines 157-158): returns the inhabitant. -/
def LabyrinthMapCoordinate.HasInhabitant : LabyrinthMapCoordinate → Except CppError Inhabitant
  | LabyrinthMapCoordinate.border _ => Except.error CppError.logicError
  | LabyrinthMapCoordinate.room r => Except.ok r.i_

/-- SetInhabitant dispatch: the base class (labyrinth_map.hpp lines 85-91)
throws a logic_error on the Border variant; the Room override is modelled
from the spec (header lines 160-163). -/
def LabyrinthMapCoordinate.SetInhabitant : LabyrinthMapCoordinate → Inhabitant → Except CppError LabyrinthMapCoordinate
  | LabyrinthMapCoordinate.border _, _ => Except.error CppError.logicError
  | LabyrinthMapCoordinate.room r, inh => Except.ok (LabyrinthMapCoordinate.room { r with i_ := inh })

/-- HasTreasure dispatch: the base class (labyrinth_map.hpp lines 93-99)
throws a logic_error on the Border variant; the Room override is modelled
from the spec (header lines 165-166). -/
def LabyrinthMapCoordinate.HasTreasure : LabyrinthMapCoordinate → Except CppError Bool
  | LabyrinthMapCoordinate.border _ => Except.error CppError.logicError
  | LabyrinthMapCoordinate.room r => Except.ok r.treasure_

/-- SetTreasure dispatch: the base class (labyrinth_map.hpp lines 101-107)
throws a logic_error on the Border variant; the Room override is modelled
from the spec (header lines 168-171). -/
def LabyrinthMapCoordinate.SetTreasure : LabyrinthMapCoordinate → Bool → Except CppError LabyrinthMapCoordinate
  | LabyrinthMapCoordinate.border _, _ => Except.error CppError.logicError
  | LabyrinthMapCoordinate.room r, v => Except.ok (LabyrinthMapCoordinate.room { r with treasure_ := v })

/-- The Coordinate value type (coordinate.hpp, used by labyrinth_map.hpp):
an (x, y) pair of unsigned integers. -/
structure Coordinate where
  x : Nat
  y : Nat
deriving DecidableEq, Repr

/-- Modelled from the spec: the external Labyrinth collaborator exposes its
logical dimensions and the Room at each logical coordinate (spec section 1
and section 6). -/
structure Labyrinth where
  x_size : Nat
  y_size : Nat
  RoomAt : Coordinate → Room

/-- A display grid: the total assignment of a polymorphic cell to every
physical coordinate (the 2-d array map_ of labyrinth_map.hpp). -/
def Grid : Type :=
  Coordinate → LabyrinthMapCoordinate

/-- Overwriting one cell of a grid. -/
def setCell (g : Grid) (p : Coordinate) (f : LabyrinthMapCoordinate → LabyrinthMapCoordinate) : Grid :=
  fun c => if c = p then f (g p) else g c

/-- Modelled from the spec: construction places a Room-variant cell where
both physical coordinates are odd and a Border-variant cell everywhere else
(spec section 4.3); the variant defaults are the field initialisers of
labyrinth_map.hpp lines 142-148 and 173-175. -/
def initialCell (c : Coordinate) : LabyrinthMapCoordinate :=
  if c.x % 2 = 1 ∧ c.y % 2 = 1 then
    LabyrinthMapCoordinate.room {}
  else
    LabyrinthMapCoordinate.border {}

/-- The LabyrinthMap class state (labyrinth_map.hpp lines 180-247): the
Labyrinth reference, the logical sizes, the physical sizes and the grid. -/
structure LabyrinthMap where
  l_ : Labyrinth
  x_size_ : Nat
  y_size_ : Nat
  map_x_size_ : Nat
  map_y_size_ : Nat
  map_ : Grid

/-- Modelled from the spec: the LabyrinthMap constructor stores the
Labyrinth reference and sizes, allocates the (2x+1) by (2y+1) grid of
default cells (spec sections 3 and 4.3). The initial Update pass the
constructor ends with is modelled separately by LabyrinthMap.Update, so
that the freshly allocated grid can be inspected. -/
def LabyrinthMap.construct (lab : Labyrinth) (x_size y_size : Nat) : LabyrinthMap :=
  { l_ := lab
    x_size_ := x_size
    y_size_ := y_size
    map_x_size_ := 2 * x_size + 1
    map_y_size_ := 2 * y_size + 1
    map_ := initialCell }

/-- LabyrinthMap::WithinBoundsOfMap, modelled from the spec (section 4.4):
both physical coordinates lie below the map sizes. -/
def LabyrinthMap.WithinBoundsOfMap (m : LabyrinthMap) (c : Coordinate) : Bool :=
  decide (c.x < m.map_x_size_ ∧ c.y < m.map_y_size_)

/-- LabyrinthMap::IsRoom, modelled from the spec (section 4.4): domain error
out of bounds, otherwise true exactly when both physical coordinates are
odd. -/
def LabyrinthMap.IsRoom (m : LabyrinthMap) (c : Coordinate) : Except CppError Bool :=
  if m.WithinBoundsOfMap c = false then
    Except.error CppError.domainError
  else
    Except.ok (decide (c.x % 2 = 1 ∧ c.y % 2 = 1))

/-- LabyrinthMap::LabyrinthToMap, modelled from the spec (section 4.4):
invalid_argument outside the logical sizes, otherwise doubles each
coordinate and adds one. -/
def LabyrinthMap.LabyrinthToMap (m : LabyrinthMap) (c : Coordinate) : Except CppError Coordinate :=
  if m.x_size_ ≤ c.x ∨ m.y_size_ ≤ c.y then
    Except.error CppError.invalidArgument
  else
    Except.ok ⟨2 * c.x + 1, 2 * c.y + 1⟩

/-- LabyrinthMap::MapToLabyrinth, modelled from the spec (section 4.4):
domain error outside the map, logic error on a Border cell coordinate,
otherwise halves each coordinate. -/
def LabyrinthMap.MapToLabyrinth (m : LabyrinthMap) (c : Coordinate) : Except CppError Coordinate :=
  if m.WithinBoundsOfMap c = false then
    Except.error CppError.domainError
  else if ¬(c.x % 2 = 1 ∧ c.y % 2 = 1) then
    Except.error CppError.logicError
  else
    Except.ok ⟨c.x / 2, c.y / 2⟩

/-- The physical Room cell of a logical coordinate: (2x+1, 2y+1). -/
def physOf (c : Coordinate) : Coordinate :=
  ⟨2 * c.x + 1, 2 * c.y + 1⟩

/-- One physical step in a direction. The display walks y from top to
bottom, so north decreases y. -/
def physStep (d : Direction) (c : Coordinate) : Coordinate :=
  match d with
  | Direction.kNorth => ⟨c.x, c.y - 1⟩
  | Direction.kEast => ⟨c.x + 1, c.y⟩
  | Direction.kSouth => ⟨c.x, c.y + 1⟩
  | Direction.kWest => ⟨c.x - 1, c.y⟩
  | Direction.kNone => c

/-- The opposite of a concrete direction. -/
def oppositeDir : Direction → Direction
  | Direction.kNorth => Direction.kSouth
  | Direction.kSouth => Direction.kNorth
  | Direction.kEast => Direction.kWest
  | Direction.kWest => Direction.kEast
  | Direction.kNone => Direction.kNone

/-- Adjacency of two logical coordinates in a direction: the second room
lies one logical step from the first. -/
def logicalAdjacent (c c2 : Coordinate) : Direction → Prop
  | Direction.kNorth => c2.x = c.x ∧ c.y = c2.y + 1
  | Direction.kSouth => c2.x = c.x ∧ c2.y = c.y + 1
  | Direction.kEast => c2.x = c.x + 1 ∧ c2.y = c.y
  | Direction.kWest => c.x = c2.x + 1 ∧ c2.y = c.y
  | Direction.kNone => False

/-- Clearing one wall flag of a cell, as Update does on a Border cell; the
Room variant is untouched (Update only applies it to Border cells). -/
def cellRemoveWall (d : Direction) : LabyrinthMapCoordinate → LabyrinthMapCoordinate
  | LabyrinthMapCoordinate.border b =>
      match d with
      | Direction.kNorth => LabyrinthMapCoordinate.border { b with wall_north_ := false }
      | Direction.kEast => LabyrinthMapCoordinate.border { b with wall_east_ := false }
      | Direction.kSouth => LabyrinthMapCoordinate.border { b with wall_south_ := false }
      | Direction.kWest => LabyrinthMapCoordinate.border { b with wall_west_ := false }
      | Direction.kNone => LabyrinthMapCoordinate.border b
  | LabyrinthMapCoordinate.room r => LabyrinthMapCoordinate.room r

/-- Setting the exit flag of a cell, as Update does on a Border cell; the
Room variant is untouched. -/
def cellSetExit (v : Bool) : LabyrinthMapCoordinate → LabyrinthMapCoordinate
  | LabyrinthMapCoordinate.border b => LabyrinthMapCoordinate.border { b with exit_ := v }
  | LabyrinthMapCoordinate.room r => LabyrinthMapCoordinate.room r

/-- Setting the inhabitant of a cell, as Update does on a Room cell; the
Border variant is untouched. -/
def cellSetInhabitant (inh : Inhabitant) : LabyrinthMapCoordinate → LabyrinthMapCoordinate
  | LabyrinthMapCoordinate.border b => LabyrinthMapCoordinate.border b
  | LabyrinthMapCoordinate.room r => LabyrinthMapCoordinate.room { r with i_ := inh }

/-- Setting the treasure flag of a cell, as Update does on a Room cell; the
Border variant is untouched. -/
def cellSetTreasure (v : Bool) : LabyrinthMapCoordinate → LabyrinthMapCoordinate
  | LabyrinthMapCoordinate.border b => LabyrinthMapCoordinate.border b
  | LabyrinthMapCoordinate.room r => LabyrinthMapCoordinate.room { r with treasure_ := v }

/-- The four concrete directions, in the order a full Update pass visits
them. -/
def dirList : List Direction :=
  [Direction.kNorth, Direction.kEast, Direction.kSouth, Direction.kWest]

/-- Modelled from the spec (section 4.5): the Border write of Update for one
room and one direction. When DirectionCheck yields kRoom the wall of the
Border cell one physical step away is removed; when it yields kExit the
wall is removed and the exit flag is set; on kWall (or the invalid kNone)
nothing changes. -/
def updateBorderFor (lab : Labyrinth) (c : Coordinate) (g : Grid) (d : Direction) : Grid :=
  match (lab.RoomAt c).DirectionCheck d with
  | Except.ok RoomBorder.kRoom =>
      setCell g (physStep d (physOf c)) (cellRemoveWall d)
  | Except.ok RoomBorder.kExit =>
      setCell g (physStep d (physOf c)) (fun cell => cellSetExit true (cellRemoveWall d cell))
  | _ => g

/-- Modelled from the spec (section 4.5): the Update work for one logical
room: copy the inhabitant, project the item onto the treasure flag, then
perform the Border write for each of the four directions. -/
def updateRoomCell (lab : Labyrinth) (g : Grid) (c : Coordinate) : Grid :=
  let r := lab.RoomAt c
  let g1 := setCell g (physOf c) (cellSetInhabitant r.GetInhabitant)
  let g2 := setCell g1 (physOf c) (cellSetTreasure (decide (r.GetItem ≠ Item.kNone)))
  List.foldl (updateBorderFor lab c) g2 dirList

/-- All logical room coordinates of an x_size by y_size Labyrinth. -/
def roomCoords (x_size y_size : Nat) : List Coordinate :=
  (List.range y_size).flatMap (fun y => (List.range x_size).map (fun x => ⟨x, y⟩))

/-- Modelled from the spec (section 4.5): a full Update pass visits every
logical room coordinate and performs its writes. -/
def LabyrinthMap.Update (m : LabyrinthMap) : LabyrinthMap :=
  { m with map_ := List.foldl (updateRoomCell m.l_) m.map_ (roomCoords m.x_size_ m.y_size_) }

/-! Sample data used by the witnesses. -/

/-- A fully walled room with no exit, inhabitant or item. -/
def room0 : Room :=
  { dark_thing_ := Inhabitant.kNone
    object_ := Item.kNone
    exit_ := Direction.kNone
    wall_north_ := true
    wall_east_ := true
    wall_south_ := true
    wall_west_ := true }

/-- A room whose exit is north (its north wall flag still set). -/
def roomExitN : Room :=
  { room0 with exit_ := Direction.kNorth }

/-- A room with an open east passage. -/
def roomOpenE : Room :=
  { room0 with wall_east_ := false }

/-- A room with an open west passage. -/
def roomOpenW : Room :=
  { room0 with wall_west_ := false }

/-- A one by one Labyrinth of fully walled rooms. -/
def lab0 : Labyrinth :=
  { x_size := 1, y_size := 1, RoomAt := fun _ => room0 }

/-- The map of lab0. -/
def m0 : LabyrinthMap :=
  LabyrinthMap.construct lab0 1 1

/-- A one by one Labyrinth whose single room has its exit north. -/
def lab1 : Labyrinth :=
  { x_size := 1, y_size := 1, RoomAt := fun _ => roomExitN }

/-- A two by one Labyrinth whose rooms open toward each other. -/
def lab2 : Labyrinth :=
  { x_size := 2, y_size := 1, RoomAt := fun c => if c.x = 0 then roomOpenE else roomOpenW }

/-! Projection lemmas for the constructed map. -/

theorem construct_x_size (lab : Labyrinth) (xs ys : Nat) :
    (LabyrinthMap.construct lab xs ys).x_size_ = xs := rfl

theorem construct_y_size (lab : Labyrinth) (xs ys : Nat) :
    (LabyrinthMap.construct lab xs ys).y_size_ = ys := rfl

theorem construct_map_x_size (lab : Labyrinth) (xs ys : Nat) :
    (LabyrinthMap.construct lab xs ys).map_x_size_ = 2 * xs + 1 := rfl

theorem construct_map_y_size (lab : Labyrinth) (xs ys : Nat) :
    (LabyrinthMap.construct lab xs ys).map_y_size_ = 2 * ys + 1 := rfl

theorem construct_map_cells (lab : Labyrinth) (xs ys : Nat) :
    (LabyrinthMap.construct lab xs ys).map_ = initialCell := rfl

/-- Claim C1: for every Room and every direction d distinct from kNone,
DirectionCheck returns kExit if d equals the exit direction (even when the
wall flag for d is set), otherwise kRoom if the wall flag for d is false,
and otherwise kWall. -/
theorem DirectionCheck_classification (r : Room) (d : Direction) (h : d ≠ Direction.kNone) :
    r.DirectionCheck d = Except.ok
      (if d = r.exit_ then RoomBorder.kExit
       else if r.wallFlag d = false then RoomBorder.kRoom
       else RoomBorder.kWall) := by
  cases d
  case kNone => exact absurd rfl h
  all_goals
    simp only [Room.DirectionCheck, Room.wallFlag]
    split_ifs <;> simp_all

/-- Witness for C1 at a concrete room and direction. -/
theorem DirectionCheck_classification_witness :
    room0.DirectionCheck Direction.kNorth = Except.ok
      (if Direction.kNorth = room0.exit_ then RoomBorder.kExit
       else if room0.wallFlag Direction.kNorth = false then RoomBorder.kRoom
       else RoomBorder.kWall) :=
  DirectionCheck_classification room0 Direction.kNorth (by decide)

/-- Claim C8: for every Room, DirectionCheck on the sentinel kNone fails
with an invalid-argument error. -/
theorem DirectionCheck_none_invalid (r : Room) :
    r.DirectionCheck Direction.kNone = Except.error CppError.invalidArgument := rfl

/-- Claim C10: GetInhabitant immediately after SetInhabitant returns the set
inhabitant, GetItem immediately after SetItem returns the set item, and
neither setter changes any other field of the Room. -/
theorem room_setters_getters (r : Room) (inh : Inhabitant) (itm : Item) :
    (r.SetInhabitant inh).GetInhabitant = inh ∧
    (r.SetItem itm).GetItem = itm ∧
    (r.SetInhabitant inh).object_ = r.object_ ∧
    (r.SetInhabitant inh).exit_ = r.exit_ ∧
    (r.SetInhabitant inh).wall_north_ = r.wall_north_ ∧
    (r.SetInhabitant inh).wall_east_ = r.wall_east_ ∧
    (r.SetInhabitant inh).wall_south_ = r.wall_south_ ∧
    (r.SetInhabitant inh).wall_west_ = r.wall_west_ ∧
    (r.SetItem itm).dark_thing_ = r.dark_thing_ ∧
    (r.SetItem itm).exit_ = r.exit_ ∧
    (r.SetItem itm).wall_north_ = r.wall_north_ ∧
    (r.SetItem itm).wall_east_ = r.wall_east_ ∧
    (r.SetItem itm).wall_south_ = r.wall_south_ ∧
    (r.SetItem itm).wall_west_ = r.wall_west_ :=
  ⟨rfl, rfl, rfl, rfl, rfl, rfl, rfl, rfl, rfl, rfl, rfl, rfl, rfl, rfl⟩

/-- Claim C7: every Room-only operation fails with a logic error on a Border
cell, and every Border-only operation fails with a logic error on a Room
cell. -/
theorem cell_wrong_variant_logic_error (b : LabyrinthMapCoordinateBorder)
    (rc : LabyrinthMapCoordinateRoom) (d : Direction) (inh : Inhabitant) (v : Bool) :
    (LabyrinthMapCoordinate.border b).HasInhabitant = Except.error CppError.logicError ∧
    (LabyrinthMapCoordinate.border b).SetInhabitant inh = Except.error CppError.logicError ∧
    (LabyrinthMapCoordinate.border b).HasTreasure = Except.error CppError.logicError ∧
    (LabyrinthMapCoordinate.border b).SetTreasure v = Except.error CppError.logicError ∧
    (LabyrinthMapCoordinate.room rc).IsWall d = Except.error CppError.logicError ∧
    (LabyrinthMapCoordinate.room rc).RemoveWall d = Except.error CppError.logicError ∧
    (LabyrinthMapCoordinate.room rc).IsExit = Except.error CppError.logicError ∧
    (LabyrinthMapCoordinate.room rc).SetExit v = Except.error CppError.logicError :=
  ⟨rfl, rfl, rfl, rfl, rfl, rfl, rfl, rfl⟩

/-- Claim C5: LabyrinthToMap maps an in-range logical coordinate (x, y) to
the physical coordinate (2x+1, 2y+1) and fails with an invalid-argument
error when x or y reaches the logical size. -/
theorem LabyrinthToMap_spec (m : LabyrinthMap) (c : Coordinate) :
    (c.x < m.x_size_ ∧ c.y < m.y_size_ →
      m.LabyrinthToMap c = Except.ok ⟨2 * c.x + 1, 2 * c.y + 1⟩) ∧
    (m.x_size_ ≤ c.x ∨ m.y_size_ ≤ c.y →
      m.LabyrinthToMap c = Except.error CppError.invalidArgument) := by
  constructor
  · intro h
    unfold LabyrinthMap.LabyrinthToMap
    rw [if_neg (by omega)]
  · intro h
    unfold LabyrinthMap.LabyrinthToMap
    rw [if_pos h]

/-- Witness for C5 at concrete coordinates. -/
theorem LabyrinthToMap_spec_witness :
    m0.LabyrinthToMap ⟨0, 0⟩ = Except.ok ⟨1, 1⟩ ∧
    m0.LabyrinthToMap ⟨5, 5⟩ = Except.error CppError.invalidArgument :=
  ⟨(LabyrinthToMap_spec m0 ⟨0, 0⟩).1 (by decide),
   (LabyrinthToMap_spec m0 ⟨5, 5⟩).2 (by decide)⟩

/-- Claim C9: MapToLabyrinth fails with a domain error outside the map
bounds, fails with a logic error on an in-bounds Border coordinate, and
succeeds exactly on in-bounds Room-cell coordinates. -/
theorem MapToLabyrinth_spec (m : LabyrinthMap) (c : Coordinate) :
    (¬(c.x < m.map_x_size_ ∧ c.y < m.map_y_size_) →
      m.MapToLabyrinth c = Except.error CppError.domainError) ∧
    ((c.x < m.map_x_size_ ∧ c.y < m.map_y_size_) → ¬(c.x % 2 = 1 ∧ c.y % 2 = 1) →
      m.MapToLabyrinth c = Except.error CppError.logicError) ∧
    ((c.x < m.map_x_size_ ∧ c.y < m.map_y_size_) → (c.x % 2 = 1 ∧ c.y % 2 = 1) →
      m.MapToLabyrinth c = Except.ok ⟨c.x / 2, c.y / 2⟩) := by
  refine ⟨?_, ?_, ?_⟩
  · intro h
    unfold LabyrinthMap.MapToLabyrinth LabyrinthMap.WithinBoundsOfMap
    rw [if_pos (by simpa using h)]
  · intro h h2
    unfold LabyrinthMap.MapToLabyrinth LabyrinthMap.WithinBoundsOfMap
    rw [if_neg (by simpa using h), if_pos h2]
  · intro h h2
    unfold LabyrinthMap.MapToLabyrinth LabyrinthMap.WithinBoundsOfMap
    rw [if_neg (by simpa using h), if_neg (by simpa using h2)]

/-- Witness for C9: a coordinate outside the map, an in-bounds Border
coordinate and an in-bounds Room coordinate. -/
theorem MapToLabyrinth_spec_witness :
    m0.MapToLabyrinth ⟨9, 9⟩ = Except.error CppError.domainError ∧
    m0.MapToLabyrinth ⟨0, 0⟩ = Except.error CppError.logicError ∧
    m0.MapToLabyrinth ⟨1, 1⟩ = Except.ok ⟨0, 0⟩ :=
  ⟨(MapToLabyrinth_spec m0 ⟨9, 9⟩).1 (by decide),
   (MapToLabyrinth_spec m0 ⟨0, 0⟩).2.1 (by decide) (by decide),
   (MapToLabyrinth_spec m0 ⟨1, 1⟩).2.2 (by decide) (by decide)⟩

/-- Claim C6: on a freshly constructed map, before any Update, every Border
cell has IsWall true for all four concrete directions and IsExit false. -/
theorem fresh_map_borders_walled (lab : Labyrinth) (xs ys : Nat) (c : Coordinate)
    (b : LabyrinthMapCoordinateBorder)
    (hb : (LabyrinthMap.construct lab xs ys).map_ c = LabyrinthMapCoordinate.border b) :
    ((LabyrinthMap.construct lab xs ys).map_ c).IsWall Direction.kNorth = Except.ok true ∧
    ((LabyrinthMap.construct lab xs ys).map_ c).IsWall Direction.kEast = Except.ok true ∧
    ((LabyrinthMap.construct lab xs ys).map_ c).IsWall Direction.kSouth = Except.ok true ∧
    ((LabyrinthMap.construct lab xs ys).map_ c).IsWall Direction.kWest = Except.ok true ∧
    ((LabyrinthMap.construct lab xs ys).map_ c).IsExit = Except.ok false := by
  rw [construct_map_cells] at hb ⊢
  have hb2 : b = {} := by
    unfold initialCell at hb
    split at hb
    · exact absurd hb (by simp)
    · exact (LabyrinthMapCoordinate.border.inj hb).symm
  rw [hb, hb2]
  exact ⟨rfl, rfl, rfl, rfl, rfl⟩

/-- Witness for C6 at the corner Border cell of the map of lab0. -/
theorem fresh_map_borders_walled_witness :
    ((LabyrinthMap.construct lab0 1 1).map_ ⟨0, 0⟩).IsWall Direction.kNorth = Except.ok true ∧
    ((LabyrinthMap.construct lab0 1 1).map_ ⟨0, 0⟩).IsWall Direction.kEast = Except.ok true ∧
    ((LabyrinthMap.construct lab0 1 1).map_ ⟨0, 0⟩).IsWall Direction.kSouth = Except.ok true ∧
    ((LabyrinthMap.construct lab0 1 1).map_ ⟨0, 0⟩).IsWall Direction.kWest = Except.ok true ∧
    ((LabyrinthMap.construct lab0 1 1).map_ ⟨0, 0⟩).IsExit = Except.ok false :=
  fresh_map_borders_walled lab0 1 1 ⟨0, 0⟩ {} rfl

/-- Claim C3: for every logical coordinate valid in the Labyrinth,
LabyrinthToMap followed by MapToLabyrinth yields the coordinate again. -/
theorem conversion_roundtrip (lab : Labyrinth) (xs ys : Nat) (c : Coordinate)
    (hx : c.x < xs) (hy : c.y < ys) :
    ((LabyrinthMap.construct lab xs ys).LabyrinthToMap c).bind
      (LabyrinthMap.construct lab xs ys).MapToLabyrinth = Except.ok c := by
  have h1 : (LabyrinthMap.construct lab xs ys).LabyrinthToMap c =
      Except.ok ⟨2 * c.x + 1, 2 * c.y + 1⟩ := by
    unfold LabyrinthMap.LabyrinthToMap
    rw [construct_x_size, construct_y_size, if_neg (by omega)]
  rw [h1]
  show (LabyrinthMap.construct lab xs ys).MapToLabyrinth ⟨2 * c.x + 1, 2 * c.y + 1⟩ =
    Except.ok c
  unfold LabyrinthMap.MapToLabyrinth LabyrinthMap.WithinBoundsOfMap
  rw [construct_map_x_size, construct_map_y_size]
  rw [if_neg (by
    show ¬(decide (2 * c.x + 1 < 2 * xs + 1 ∧ 2 * c.y + 1 < 2 * ys + 1) = false)
    simp only [decide_eq_false_iff_not, not_not]
    omega)]
  rw [if_neg (by
    show ¬¬((2 * c.x + 1) % 2 = 1 ∧ (2 * c.y + 1) % 2 = 1)
    simp only [not_not]
    omega)]
  show Except.ok ⟨(2 * c.x + 1) / 2, (2 * c.y + 1) / 2⟩ = Except.ok c
  have e1 : (2 * c.x + 1) / 2 = c.x := by omega
  have e2 : (2 * c.y + 1) / 2 = c.y := by omega
  rw [e1, e2]

/-- Witness for C3 at a concrete coordinate. -/
theorem conversion_roundtrip_witness :
    ((LabyrinthMap.construct lab0 1 1).LabyrinthToMap ⟨0, 0⟩).bind
      (LabyrinthMap.construct lab0 1 1).MapToLabyrinth = Except.ok ⟨0, 0⟩ :=
  conversion_roundtrip lab0 1 1 ⟨0, 0⟩ (by decide) (by decide)

/-! Infrastructure for reasoning about a full Update pass. -/

/-- The variant discriminator of a cell. -/
def LabyrinthMapCoordinate.isBorder : LabyrinthMapCoordinate → Bool
  | LabyrinthMapCoordinate.border _ => true
  | LabyrinthMapCoordinate.room _ => false

theorem coord_x (a b : Nat) : (Coordinate.mk a b).x = a := rfl

theorem coord_y (a b : Nat) : (Coordinate.mk a b).y = b := rfl

theorem isBorder_iff (cell : LabyrinthMapCoordinate) :
    cell.isBorder = true ↔ ∃ b, cell = LabyrinthMapCoordinate.border b := by
  cases cell <;> simp [LabyrinthMapCoordinate.isBorder]

theorem DirCheck_none_err (r : Room) :
    r.DirectionCheck Direction.kNone = Except.error CppError.invalidArgument := rfl

theorem DirectionCheck_total (r : Room) (d : Direction) (hd : d ≠ Direction.kNone) :
    r.DirectionCheck d = Except.ok RoomBorder.kExit ∨
    r.DirectionCheck d = Except.ok RoomBorder.kRoom ∨
    r.DirectionCheck d = Except.ok RoomBorder.kWall := by
  unfold Room.DirectionCheck
  rw [if_neg hd]
  split_ifs <;> simp

theorem mem_dirList (d : Direction) (hd : d ≠ Direction.kNone) : d ∈ dirList := by
  cases d
  case kNone => exact absurd rfl hd
  all_goals simp [dirList]

theorem mem_roomCoords (xs ys : Nat) (c : Coordinate) (hx : c.x < xs) (hy : c.y < ys) :
    c ∈ roomCoords xs ys := by
  unfold roomCoords
  rw [List.mem_flatMap]
  exact ⟨c.y, List.mem_range.mpr hy, List.mem_map.mpr ⟨c.x, List.mem_range.mpr hx, rfl⟩⟩

/-! Cell-level facts about the Update mutators. -/

theorem isBorder_cellRemoveWall (d : Direction) (cell : LabyrinthMapCoordinate) :
    (cellRemoveWall d cell).isBorder = cell.isBorder := by
  cases cell <;> cases d <;> rfl

theorem isBorder_cellSetExit (v : Bool) (cell : LabyrinthMapCoordinate) :
    (cellSetExit v cell).isBorder = cell.isBorder := by
  cases cell <;> rfl

theorem isBorder_cellSetInhabitant (inh : Inhabitant) (cell : LabyrinthMapCoordinate) :
    (cellSetInhabitant inh cell).isBorder = cell.isBorder := by
  cases cell <;> rfl

theorem isBorder_cellSetTreasure (v : Bool) (cell : LabyrinthMapCoordinate) :
    (cellSetTreasure v cell).isBorder = cell.isBorder := by
  cases cell <;> rfl

theorem IsWall_cellSetExit (v : Bool) (cell : LabyrinthMapCoordinate) (d : Direction) :
    (cellSetExit v cell).IsWall d = cell.IsWall d := by
  cases cell <;> cases d <;> rfl

theorem IsWall_cellSetInhabitant (inh : Inhabitant) (cell : LabyrinthMapCoordinate) (d : Direction) :
    (cellSetInhabitant inh cell).IsWall d = cell.IsWall d := by
  cases cell <;> cases d <;> rfl

theorem IsWall_cellSetTreasure (v : Bool) (cell : LabyrinthMapCoordinate) (d : Direction) :
    (cellSetTreasure v cell).IsWall d = cell.IsWall d := by
  cases cell <;> cases d <;> rfl

theorem IsExit_cellRemoveWall (d : Direction) (cell : LabyrinthMapCoordinate) :
    (cellRemoveWall d cell).IsExit = cell.IsExit := by
  cases cell <;> cases d <;> rfl

theorem IsExit_cellSetInhabitant (inh : Inhabitant) (cell : LabyrinthMapCoordinate) :
    (cellSetInhabitant inh cell).IsExit = cell.IsExit := by
  cases cell <;> rfl

theorem IsExit_cellSetTreasure (v : Bool) (cell : LabyrinthMapCoordinate) :
    (cellSetTreasure v cell).IsExit = cell.IsExit := by
  cases cell <;> rfl

theorem isBorder_true_cellRemoveWall (d : Direction) (cell : LabyrinthMapCoordinate)
    (h : cell.isBorder = true) : (cellRemoveWall d cell).isBorder = true := by
  rw [isBorder_cellRemoveWall]; exact h

theorem isBorder_true_cellSetExit (v : Bool) (cell : LabyrinthMapCoordinate)
    (h : cell.isBorder = true) : (cellSetExit v cell).isBorder = true := by
  rw [isBorder_cellSetExit]; exact h

theorem isBorder_true_cellSetInhabitant (inh : Inhabitant) (cell : LabyrinthMapCoordinate)
    (h : cell.isBorder = true) : (cellSetInhabitant inh cell).isBorder = true := by
  rw [isBorder_cellSetInhabitant]; exact h

theorem isBorder_true_cellSetTreasure (v : Bool) (cell : LabyrinthMapCoordinate)
    (h : cell.isBorder = true) : (cellSetTreasure v cell).isBorder = true := by
  rw [isBorder_cellSetTreasure]; exact h

theorem wallFalse_cellSetExit (v : Bool) (cell : LabyrinthMapCoordinate) (d : Direction)
    (h : cell.IsWall d = Except.ok false) : (cellSetExit v cell).IsWall d = Except.ok false := by
  rw [IsWall_cellSetExit]; exact h

theorem wallFalse_cellSetInhabitant (inh : Inhabitant) (cell : LabyrinthMapCoordinate)
    (d : Direction) (h : cell.IsWall d = Except.ok false) :
    (cellSetInhabitant inh cell).IsWall d = Except.ok false := by
  rw [IsWall_cellSetInhabitant]; exact h

theorem wallFalse_cellSetTreasure (v : Bool) (cell : LabyrinthMapCoordinate) (d : Direction)
    (h : cell.IsWall d = Except.ok false) :
    (cellSetTreasure v cell).IsWall d = Except.ok false := by
  rw [IsWall_cellSetTreasure]; exact h

theorem exitTrue_cellRemoveWall (d : Direction) (cell : LabyrinthMapCoordinate)
    (h : cell.IsExit = Except.ok true) : (cellRemoveWall d cell).IsExit = Except.ok true := by
  rw [IsExit_cellRemoveWall]; exact h

theorem exitTrue_cellSetInhabitant (inh : Inhabitant) (cell : LabyrinthMapCoordinate)
    (h : cell.IsExit = Except.ok true) :
    (cellSetInhabitant inh cell).IsExit = Except.ok true := by
  rw [IsExit_cellSetInhabitant]; exact h

theorem exitTrue_cellSetTreasure (v : Bool) (cell : LabyrinthMapCoordinate)
    (h : cell.IsExit = Except.ok true) :
    (cellSetTreasure v cell).IsExit = Except.ok true := by
  rw [IsExit_cellSetTreasure]; exact h

theorem IsWall_false_cellRemoveWall (d d2 : Direction) (cell : LabyrinthMapCoordinate)
    (h : cell.IsWall d = Except.ok false) :
    (cellRemoveWall d2 cell).IsWall d = Except.ok false := by
  cases cell
  case room r => exact h
  case border b =>
    cases d <;> cases d2 <;> simp_all [LabyrinthMapCoordinate.IsWall, cellRemoveWall]

theorem IsExit_true_cellSetExit (cell : LabyrinthMapCoordinate)
    (h : cell.IsExit = Except.ok true) :
    (cellSetExit true cell).IsExit = Except.ok true := by
  cases cell
  case room r => exact h
  case border b => rfl

theorem IsWall_cellRemoveWall_self (d : Direction) (hd : d ≠ Direction.kNone)
    (b : LabyrinthMapCoordinateBorder) :
    (cellRemoveWall d (LabyrinthMapCoordinate.border b)).IsWall d = Except.ok false := by
  cases d
  case kNone => exact absurd rfl hd
  all_goals rfl

theorem exit_establish_cell (d : Direction) (hd : d ≠ Direction.kNone)
    (b : LabyrinthMapCoordinateBorder) :
    (cellSetExit true (cellRemoveWall d (LabyrinthMapCoordinate.border b))).IsWall d = Except.ok false ∧
    (cellSetExit true (cellRemoveWall d (LabyrinthMapCoordinate.border b))).IsExit = Except.ok true := by
  cases d
  case kNone => exact absurd rfl hd
  all_goals exact ⟨rfl, rfl⟩

/-! Grid-level preservation and establishment. -/

theorem setCell_pres (g : Grid) (p : Coordinate) (f : LabyrinthMapCoordinate → LabyrinthMapCoordinate)
    (w : Coordinate) (P : LabyrinthMapCoordinate → Prop)
    (hf : ∀ cell, P cell → P (f cell)) (h : P (g w)) : P ((setCell g p f) w) := by
  show P (if w = p then f (g p) else g w)
  by_cases hwp : w = p
  · subst hwp
    rw [if_pos rfl]
    exact hf _ h
  · rw [if_neg hwp]
    exact h

theorem setCell_est (g : Grid) (p : Coordinate) (f : LabyrinthMapCoordinate → LabyrinthMapCoordinate)
    (P : LabyrinthMapCoordinate → Prop) (hf : P (f (g p))) : P ((setCell g p f) p) := by
  show P (if p = p then f (g p) else g p)
  rw [if_pos rfl]
  exact hf

theorem foldl_preserve {α β : Type} (P : β → Prop) (f : β → α → β) (l : List α)
    (hf : ∀ b x, P b → P (f b x)) :
    ∀ b, P b → P (List.foldl f b l) := by
  induction l with
  | nil => exact fun b hb => hb
  | cons x xs ih => exact fun b hb => ih (f b x) (hf b x hb)

theorem foldl_establish {α β : Type} (P B : β → Prop) (f : β → α → β) (l : List α) (a : α)
    (hB : ∀ b x, B b → B (f b x))
    (hP : ∀ b x, P b → P (f b x))
    (hest : ∀ b, B b → P (f b a)) :
    ∀ b, a ∈ l → B b → P (List.foldl f b l) := by
  induction l with
  | nil => exact fun b ha => absurd ha (List.not_mem_nil a)
  | cons x xs ih =>
    intro b ha hb
    rcases List.mem_cons.mp ha with h1 | h2
    · subst h1
      exact foldl_preserve P f xs hP (f b a) (hest b hb)
    · exact ih (f b x) h2 (hB b x hb)

theorem updateRoomCell_eq (lab : Labyrinth) (g : Grid) (c : Coordinate) :
    updateRoomCell lab g c =
      List.foldl (updateBorderFor lab c)
        (setCell (setCell g (physOf c) (cellSetInhabitant (lab.RoomAt c).GetInhabitant))
          (physOf c) (cellSetTreasure (decide ((lab.RoomAt c).GetItem ≠ Item.kNone)))) dirList := rfl

theorem update_construct_eq (lab : Labyrinth) (xs ys : Nat) :
    ((LabyrinthMap.construct lab xs ys).Update).map_ =
      List.foldl (updateRoomCell lab) initialCell (roomCoords xs ys) := rfl

theorem updateBorderFor_pres (P : LabyrinthMapCoordinate → Prop) (lab : Labyrinth)
    (c2 : Coordinate)
    (hP1 : ∀ d3 cell, P cell → P (cellRemoveWall d3 cell))
    (hP2 : ∀ cell, P cell → P (cellSetExit true cell))
    (w : Coordinate) (g : Grid) (d2 : Direction) (h : P (g w)) :
    P ((updateBorderFor lab c2 g d2) w) := by
  unfold updateBorderFor
  cases hE : (lab.RoomAt c2).DirectionCheck d2 with
  | error e => exact h
  | ok rb =>
    cases rb with
    | kRoom => exact setCell_pres _ _ _ _ P (hP1 d2) h
    | kExit => exact setCell_pres _ _ _ _ P (fun cell hc => hP2 _ (hP1 d2 _ hc)) h
    | kWall => exact h

theorem updateRoomCell_pres (P : LabyrinthMapCoordinate → Prop) (lab : Labyrinth)
    (hP1 : ∀ d3 cell, P cell → P (cellRemoveWall d3 cell))
    (hP2 : ∀ cell, P cell → P (cellSetExit true cell))
    (hP3 : ∀ inh cell, P cell → P (cellSetInhabitant inh cell))
    (hP4 : ∀ v cell, P cell → P (cellSetTreasure v cell))
    (w : Coordinate) (g : Grid) (c2 : Coordinate) (h : P (g w)) :
    P ((updateRoomCell lab g c2) w) := by
  rw [updateRoomCell_eq]
  refine foldl_preserve (fun g3 => P (g3 w)) (updateBorderFor lab c2) dirList
    (fun g3 d3 hg => updateBorderFor_pres P lab c2 hP1 hP2 w g3 d3 hg) _ ?_
  exact setCell_pres _ _ _ _ P (hP4 _) (setCell_pres _ _ _ _ P (hP3 _) h)

theorem updateBorderFor_establish_wall (lab : Labyrinth) (c : Coordinate) (d : Direction)
    (hd : d ≠ Direction.kNone)
    (hdc : (lab.RoomAt c).DirectionCheck d = Except.ok RoomBorder.kRoom ∨
           (lab.RoomAt c).DirectionCheck d = Except.ok RoomBorder.kExit)
    (g : Grid) (hb : (g (physStep d (physOf c))).isBorder = true) :
    ((updateBorderFor lab c g d) (physStep d (physOf c))).IsWall d = Except.ok false := by
  obtain ⟨b, hbb⟩ := (isBorder_iff _).mp hb
  rcases hdc with h | h
  · unfold updateBorderFor
    rw [h]
    refine setCell_est g _ _ (fun cell => cell.IsWall d = Except.ok false) ?_
    rw [hbb]
    exact IsWall_cellRemoveWall_self d hd b
  · unfold updateBorderFor
    rw [h]
    refine setCell_est g _ _ (fun cell => cell.IsWall d = Except.ok false) ?_
    rw [hbb]
    exact (exit_establish_cell d hd b).1

theorem updateBorderFor_establish_exit (lab : Labyrinth) (c : Coordinate) (d : Direction)
    (hd : d ≠ Direction.kNone)
    (hdc : (lab.RoomAt c).DirectionCheck d = Except.ok RoomBorder.kExit)
    (g : Grid) (hb : (g (physStep d (physOf c))).isBorder = true) :
    ((updateBorderFor lab c g d) (physStep d (physOf c))).IsWall d = Except.ok false ∧
    ((updateBorderFor lab c g d) (physStep d (physOf c))).IsExit = Except.ok true := by
  obtain ⟨b, hbb⟩ := (isBorder_iff _).mp hb
  unfold updateBorderFor
  rw [hdc]
  refine setCell_est g _ _
    (fun cell => cell.IsWall d = Except.ok false ∧ cell.IsExit = Except.ok true) ?_
  rw [hbb]
  exact exit_establish_cell d hd b

theorem initial_border_at_step (c : Coordinate) (d : Direction) (hd : d ≠ Direction.kNone) :
    (initialCell (physStep d (physOf c))).isBorder = true := by
  cases d
  case kNone => exact absurd rfl hd
  all_goals
    simp only [physStep, physOf, initialCell, coord_x, coord_y]
    rw [if_neg (by omega)]
    rfl

theorem borderAt_pres_updateRoomCell (lab : Labyrinth) (w : Coordinate) (g : Grid)
    (c2 : Coordinate) (h : (g w).isBorder = true) :
    ((updateRoomCell lab g c2) w).isBorder = true :=
  updateRoomCell_pres (fun cell => cell.isBorder = true) lab
    (fun d3 cell hc => isBorder_true_cellRemoveWall d3 cell hc)
    (fun cell hc => isBorder_true_cellSetExit true cell hc)
    (fun inh cell hc => isBorder_true_cellSetInhabitant inh cell hc)
    (fun v cell hc => isBorder_true_cellSetTreasure v cell hc)
    w g c2 h

theorem wallFalse_pres_updateRoomCell (lab : Labyrinth) (w : Coordinate) (d : Direction)
    (g : Grid) (c2 : Coordinate) (h : (g w).IsWall d = Except.ok false) :
    ((updateRoomCell lab g c2) w).IsWall d = Except.ok false :=
  updateRoomCell_pres (fun cell => cell.IsWall d = Except.ok false) lab
    (fun d3 cell hc => IsWall_false_cellRemoveWall d d3 cell hc)
    (fun cell hc => wallFalse_cellSetExit true cell _ hc)
    (fun inh cell hc => wallFalse_cellSetInhabitant inh cell _ hc)
    (fun v cell hc => wallFalse_cellSetTreasure v cell _ hc)
    w g c2 h

theorem wallExit_pres_updateRoomCell (lab : Labyrinth) (w : Coordinate) (d : Direction)
    (g : Grid) (c2 : Coordinate)
    (h : (g w).IsWall d = Except.ok false ∧ (g w).IsExit = Except.ok true) :
    ((updateRoomCell lab g c2) w).IsWall d = Except.ok false ∧
    ((updateRoomCell lab g c2) w).IsExit = Except.ok true :=
  updateRoomCell_pres
    (fun cell => cell.IsWall d = Except.ok false ∧ cell.IsExit = Except.ok true) lab
    (fun d3 cell hc => ⟨IsWall_false_cellRemoveWall d d3 cell hc.1,
      exitTrue_cellRemoveWall d3 cell hc.2⟩)
    (fun cell hc => ⟨wallFalse_cellSetExit true cell _ hc.1, IsExit_true_cellSetExit cell hc.2⟩)
    (fun inh cell hc => ⟨wallFalse_cellSetInhabitant inh cell _ hc.1,
      exitTrue_cellSetInhabitant inh cell hc.2⟩)
    (fun v cell hc => ⟨wallFalse_cellSetTreasure v cell _ hc.1,
      exitTrue_cellSetTreasure v cell hc.2⟩)
    w g c2 h

theorem updateRoomCell_establish_wall (lab : Labyrinth) (c : Coordinate) (d : Direction)
    (hd : d ≠ Direction.kNone)
    (hdc : (lab.RoomAt c).DirectionCheck d = Except.ok RoomBorder.kRoom ∨
           (lab.RoomAt c).DirectionCheck d = Except.ok RoomBorder.kExit)
    (g : Grid) (hb : (g (physStep d (physOf c))).isBorder = true) :
    ((updateRoomCell lab g c) (physStep d (physOf c))).IsWall d = Except.ok false := by
  rw [updateRoomCell_eq]
  refine foldl_establish (fun g3 => (g3 (physStep d (physOf c))).IsWall d = Except.ok false)
    (fun g3 => (g3 (physStep d (physOf c))).isBorder = true)
    (updateBorderFor lab c) dirList d
    (fun g3 d3 hg => updateBorderFor_pres (fun cell => cell.isBorder = true) lab c
      (fun d4 cell hc => isBorder_true_cellRemoveWall d4 cell hc)
      (fun cell hc => isBorder_true_cellSetExit true cell hc)
      _ g3 d3 hg)
    (fun g3 d3 hg => updateBorderFor_pres (fun cell => cell.IsWall d = Except.ok false) lab c
      (fun d4 cell hc => IsWall_false_cellRemoveWall d d4 cell hc)
      (fun cell hc => wallFalse_cellSetExit true cell _ hc)
      _ g3 d3 hg)
    (fun g3 hg => updateBorderFor_establish_wall lab c d hd hdc g3 hg)
    _ (mem_dirList d hd) ?_
  refine setCell_pres _ _ _ _ (fun cell => cell.isBorder = true)
    (fun cell hc => isBorder_true_cellSetTreasure _ cell hc) ?_
  exact setCell_pres _ _ _ _ (fun cell => cell.isBorder = true)
    (fun cell hc => isBorder_true_cellSetInhabitant _ cell hc) hb

theorem updateRoomCell_establish_exit (lab : Labyrinth) (c : Coordinate) (d : Direction)
    (hd : d ≠ Direction.kNone)
    (hdc : (lab.RoomAt c).DirectionCheck d = Except.ok RoomBorder.kExit)
    (g : Grid) (hb : (g (physStep d (physOf c))).isBorder = true) :
    ((updateRoomCell lab g c) (physStep d (physOf c))).IsWall d = Except.ok false ∧
    ((updateRoomCell lab g c) (physStep d (physOf c))).IsExit = Except.ok true := by
  rw [updateRoomCell_eq]
  refine foldl_establish
    (fun g3 => (g3 (physStep d (physOf c))).IsWall d = Except.ok false ∧
      (g3 (physStep d (physOf c))).IsExit = Except.ok true)
    (fun g3 => (g3 (physStep d (physOf c))).isBorder = true)
    (updateBorderFor lab c) dirList d
    (fun g3 d3 hg => updateBorderFor_pres (fun cell => cell.isBorder = true) lab c
      (fun d4 cell hc => isBorder_true_cellRemoveWall d4 cell hc)
      (fun cell hc => isBorder_true_cellSetExit true cell hc)
      _ g3 d3 hg)
    (fun g3 d3 hg => updateBorderFor_pres
      (fun cell => cell.IsWall d = Except.ok false ∧ cell.IsExit = Except.ok true) lab c
      (fun d4 cell hc => ⟨IsWall_false_cellRemoveWall d d4 cell hc.1,
        exitTrue_cellRemoveWall d4 cell hc.2⟩)
      (fun cell hc => ⟨wallFalse_cellSetExit true cell _ hc.1,
        IsExit_true_cellSetExit cell hc.2⟩)
      _ g3 d3 hg)
    (fun g3 hg => updateBorderFor_establish_exit lab c d hd hdc g3 hg)
    _ (mem_dirList d hd) ?_
  refine setCell_pres _ _ _ _ (fun cell => cell.isBorder = true)
    (fun cell hc => isBorder_true_cellSetTreasure _ cell hc) ?_
  exact setCell_pres _ _ _ _ (fun cell => cell.isBorder = true)
    (fun cell hc => isBorder_true_cellSetInhabitant _ cell hc) hb

theorem shared_border_coord (c c2 : Coordinate) (d : Direction)
    (hadj : logicalAdjacent c c2 d) :
    physStep d (physOf c) = physStep (oppositeDir d) (physOf c2) := by
  cases d
  case kNone => exact (hadj : False).elim
  case kNorth =>
    have h : c2.x = c.x ∧ c.y = c2.y + 1 := hadj
    simp only [physStep, physOf, oppositeDir, coord_x, coord_y, Coordinate.mk.injEq]
    omega
  case kSouth =>
    have h : c2.x = c.x ∧ c2.y = c.y + 1 := hadj
    simp only [physStep, physOf, oppositeDir, coord_x, coord_y, Coordinate.mk.injEq]
    omega
  case kEast =>
    have h : c2.x = c.x + 1 ∧ c2.y = c.y := hadj
    simp only [physStep, physOf, oppositeDir, coord_x, coord_y, Coordinate.mk.injEq]
    omega
  case kWest =>
    have h : c.x = c2.x + 1 ∧ c2.y = c.y := hadj
    simp only [physStep, physOf, oppositeDir, coord_x, coord_y, Coordinate.mk.injEq]
    omega

/-- Claim C2: after a full Update pass, for two Rooms adjacent in direction
d whose first room classifies d as other than kWall, the single Border cell
physically between their two Room cells is addressed identically from both
rooms and reports IsWall false for d, so both rooms see the same consistent
Border state. -/
theorem update_shared_border_consistent (lab : Labyrinth) (c c2 : Coordinate) (d : Direction)
    (hx : c.x < lab.x_size) (hy : c.y < lab.y_size)
    (hx2 : c2.x < lab.x_size) (hy2 : c2.y < lab.y_size)
    (hadj : logicalAdjacent c c2 d)
    (hnw : (lab.RoomAt c).DirectionCheck d ≠ Except.ok RoomBorder.kWall) :
    physStep d (physOf c) = physStep (oppositeDir d) (physOf c2) ∧
    (((LabyrinthMap.construct lab lab.x_size lab.y_size).Update).map_
        (physStep d (physOf c))).IsWall d = Except.ok false := by
  have hd : d ≠ Direction.kNone := by
    intro h
    subst h
    exact (hadj : False).elim
  have hdc : (lab.RoomAt c).DirectionCheck d = Except.ok RoomBorder.kRoom ∨
      (lab.RoomAt c).DirectionCheck d = Except.ok RoomBorder.kExit := by
    rcases DirectionCheck_total (lab.RoomAt c) d hd with h | h | h
    · exact Or.inr h
    · exact Or.inl h
    · exact absurd h hnw
  refine ⟨shared_border_coord c c2 d hadj, ?_⟩
  rw [update_construct_eq]
  exact foldl_establish
    (fun g3 => (g3 (physStep d (physOf c))).IsWall d = Except.ok false)
    (fun g3 => (g3 (physStep d (physOf c))).isBorder = true)
    (updateRoomCell lab) (roomCoords lab.x_size lab.y_size) c
    (fun g3 c3 hg => borderAt_pres_updateRoomCell lab _ g3 c3 hg)
    (fun g3 c3 hg => wallFalse_pres_updateRoomCell lab _ d g3 c3 hg)
    (fun g3 hg => updateRoomCell_establish_wall lab c d hd hdc g3 hg)
    initialCell (mem_roomCoords lab.x_size lab.y_size c hx hy)
    (initial_border_at_step c d hd)

/-- Witness for C2: the two by one Labyrinth lab2 whose rooms open toward
each other, at the shared Border cell. -/
theorem update_shared_border_consistent_witness :
    physStep Direction.kEast (physOf ⟨0, 0⟩) =
      physStep (oppositeDir Direction.kEast) (physOf ⟨1, 0⟩) ∧
    (((LabyrinthMap.construct lab2 lab2.x_size lab2.y_size).Update).map_
        (physStep Direction.kEast (physOf ⟨0, 0⟩))).IsWall Direction.kEast = Except.ok false :=
  update_shared_border_consistent lab2 ⟨0, 0⟩ ⟨1, 0⟩ Direction.kEast
    (by decide) (by decide) (by decide) (by decide) ⟨rfl, rfl⟩ (by decide)

/-- Claim C4: for a Room whose DirectionCheck in direction d yields kExit,
after Update the Border cell one physical step in direction d from the Room
cell has IsExit true and IsWall d false. -/
theorem update_exit_border (lab : Labyrinth) (c : Coordinate) (d : Direction)
    (hx : c.x < lab.x_size) (hy : c.y < lab.y_size)
    (hdc : (lab.RoomAt c).DirectionCheck d = Except.ok RoomBorder.kExit) :
    (((LabyrinthMap.construct lab lab.x_size lab.y_size).Update).map_
        (physStep d (physOf c))).IsExit = Except.ok true ∧
    (((LabyrinthMap.construct lab lab.x_size lab.y_size).Update).map_
        (physStep d (physOf c))).IsWall d = Except.ok false := by
  have hd : d ≠ Direction.kNone := by
    intro h
    subst h
    rw [DirCheck_none_err] at hdc
    exact Except.noConfusion hdc
  rw [update_construct_eq]
  have h := foldl_establish
    (fun g3 => (g3 (physStep d (physOf c))).IsWall d = Except.ok false ∧
      (g3 (physStep d (physOf c))).IsExit = Except.ok true)
    (fun g3 => (g3 (physStep d (physOf c))).isBorder = true)
    (updateRoomCell lab) (roomCoords lab.x_size lab.y_size) c
    (fun g3 c3 hg => borderAt_pres_updateRoomCell lab _ g3 c3 hg)
    (fun g3 c3 hg => wallExit_pres_updateRoomCell lab _ d g3 c3 hg)
    (fun g3 hg => updateRoomCell_establish_exit lab c d hd hdc g3 hg)
    initialCell (mem_roomCoords lab.x_size lab.y_size c hx hy)
    (initial_border_at_step c d hd)
  exact ⟨h.2, h.1⟩

/-- Witness for C4: the one by one Labyrinth lab1 whose room has its exit
north, at the Border cell north of the Room cell. -/
theorem update_exit_border_witness :
    (((LabyrinthMap.construct lab1 lab1.x_size lab1.y_size).Update).map_
        (physStep Direction.kNorth (physOf ⟨0, 0⟩))).IsExit = Except.ok true ∧
    (((LabyrinthMap.construct lab1 lab1.x_size lab1.y_size).Update).map_
        (physStep Direction.kNorth (physOf ⟨0, 0⟩))).IsWall Direction.kNorth = Except.ok false :=
  update_exit_border lab1 ⟨0, 0⟩ Direction.kNorth (by decide) (by decide) rfl

end LabyrinthVerif
